import Mathlib

/-!
Formal model of the WodSniper booking core: a shallow embedding of
`app/scheduler/__init__.py` (window detection, per-user workers, the
per-booking retry state machine) and `app/scraper/client.py`
(`get_classes`, `find_class`, `book_class` response classification),
together with theorems checking the stated behavioural properties.

Modelling conventions:
* Dates are absolute day indices (`Nat`), with day 0 falling on a Monday,
  so `d % 7` is exactly Python's `datetime.weekday()` (0 = Monday).
* Machine integers are `Nat`/`Int`; Python's `int` is unbounded, so no
  wrap-around modelling is needed.
* Fallible Python code (raised exceptions) is modelled with `Except`.
* Case lowering models `str.lower()` ASCII-wise via `Char.toLower`.
-/

namespace WodSniper

/-! ## String helpers (Python `in`, `.lower()`, `.replace(':','')[:4]`) -/

/-- `needle` occurs at the start of `hay` (character lists). -/
def listLeads : List Char → List Char → Bool
  | [], _ => true
  | _ :: _, [] => false
  | a :: as, b :: bs => a == b && listLeads as bs

/-- `needle` occurs somewhere inside `hay` (character lists); models
Python's `needle in hay` for strings. -/
def listHasSub (hay needle : List Char) : Bool :=
  if listLeads needle hay then true
  else
    match hay with
    | [] => false
    | _ :: t => listHasSub t needle

/-- Python `needle in hay` on strings. -/
def strHasSub (hay needle : String) : Bool :=
  listHasSub hay.data needle.data

/-- Python `s.lower()` (ASCII letters). -/
def lowerStr (s : String) : String :=
  String.mk (s.data.map Char.toLower)

/-- Python `time_str.replace(':', '')[:4]` as used by `find_class`:
drop every colon, then keep the first four characters. -/
def truncTime (s : String) : String :=
  String.mk ((s.data.filter (fun c => c != ':')).take 4)

/-- Case-insensitive containment, the comparison `find_class` performs on
class names (`class_type.lower() in cls_name.lower()`). -/
def containsCI (hay needle : String) : Bool :=
  strHasSub (lowerStr hay) (lowerStr needle)

/-! ## Target-date computation (`_process_single_booking_with_client`,
scheduler lines 514-519)

```python
today = datetime.now()
days_ahead = booking.day_of_week - today.weekday()
if days_ahead <= 0:
    days_ahead += 7
target_date = today + timedelta(days=days_ahead)
```
-/

/-- `booking.day_of_week - today.weekday()` (may be negative). -/
def daysAheadRaw (todayAbs dow : Nat) : Int :=
  (dow : Int) - ((todayAbs % 7 : Nat) : Int)

/-- The offset after the `if days_ahead <= 0: days_ahead += 7` adjustment. -/
def daysAheadAdj (todayAbs dow : Nat) : Int :=
  if daysAheadRaw todayAbs dow ≤ 0 then daysAheadRaw todayAbs dow + 7
  else daysAheadRaw todayAbs dow

/-- `today + timedelta(days=days_ahead)` on absolute day indices. -/
def computeTargetDate (todayAbs dow : Nat) : Nat :=
  todayAbs + (daysAheadAdj todayAbs dow).toNat

/-! ## Booking-window detection (`check_booking_windows`, scheduler
lines 52-84)

```python
target_minute = (current_minute + 5) % 60
target_hour = current_hour + ((current_minute + 5) // 60)
if target_hour >= 24:
    return
boxes_opening = Box.query.filter(
    Box.booking_open_day == current_day,
    Box.booking_open_hour == target_hour,
    Box.booking_open_minute == target_minute).all()
```
-/

structure BoxSched where
  bid : Nat
  booking_open_day : Nat
  booking_open_hour : Nat
  booking_open_minute : Nat
  deriving DecidableEq

/-- The boxes whose bookings are fired by one tick of
`check_booking_windows`, given the current weekday/hour/minute. -/
def check_booking_windows (boxes : List BoxSched) (currentDay currentHour currentMinute : Nat) :
    List BoxSched :=
  let target_minute := (currentMinute + 5) % 60
  let target_hour := currentHour + (currentMinute + 5) / 60
  if 24 ≤ target_hour then []
  else
    boxes.filter (fun b =>
      b.booking_open_day == currentDay &&
      b.booking_open_hour == target_hour &&
      b.booking_open_minute == target_minute)

/-- A schedule (day, hour, minute) as an absolute minute-of-week. -/
def schedInstant (day hour minute : Nat) : Nat :=
  day * 1440 + hour * 60 + minute

/-! ## Scraper error taxonomy (`app/scraper/exceptions.py`)

`RateLimitError.retry_after` defaults to 60 when not supplied. `unexpected`
stands for any exception outside the WodBuster hierarchy. -/

inductive ScraperErr where
  | loginError (msg : String)
  | sessionExpired (msg : String)
  | classNotFound (msg : String)
  | noClassesAvailable (msg : String)
  | classFull (msg : String)
  | bookingError (msg : String)
  | rateLimit (msg : String) (retryAfter : Nat)
  | unexpected (msg : String)
  deriving DecidableEq

/-- Python `str(e)` for each exception (the constructor message). -/
def ScraperErr.text : ScraperErr → String
  | .loginError m => m
  | .sessionExpired m => m
  | .classNotFound m => m
  | .noClassesAvailable m => m
  | .classFull m => m
  | .bookingError m => m
  | .rateLimit m _ => m
  | .unexpected m => m

/-! ## `get_classes` response normalisation (`client.py` lines 530-654)

The upstream payload is modelled post-JSON-parse; `none` stands for a
missing/malformed JSON body (`response.json()` raised). Dict keys that a
format never sets are collapsed to their falsy defaults (empty string,
`none`, `false`), matching what `cls.get(key)` would yield downstream. -/

structure Atleta where
  aid : Option Nat
  deriving DecidableEq

/-- One `Valor` object of the new (nested time-slot) format. -/
structure Valor where
  vid : Option Nat
  nombre : String
  horaComienzo : String
  plazas : Nat
  atletas : List Atleta
  deriving DecidableEq

/-- One entry of a time slot's `Valores` list; `valor := none` models a
falsy `Valor` (skipped by `if valor:`). -/
structure ValorItem where
  tipoEstado : String
  valor : Option Valor
  deriving DecidableEq

structure TimeSlot where
  valores : List ValorItem
  deriving DecidableEq

/-- One entry of the old flat `Datos` format. -/
structure OldItem where
  oid : Option Nat
  nombre : String
  hora : String
  fecha : String
  plazasLibres : Int
  plazasTotales : Int
  apuntado : Bool
  puedeApuntar : Bool
  entrenador : String
  deriving DecidableEq

/-- Parsed `LoadClass.ashx` body. `esCorrecto = none` means the
`EsCorrecto` key is absent; `dataField = none` means no `Data` key. -/
structure LoadClassData where
  esCorrecto : Option Bool
  errorMsg : Option String
  mantenimiento : Bool
  dataField : Option (List TimeSlot)
  title : String
  datos : List OldItem
  deriving DecidableEq

/-- Normalised class representation handed to `find_class`/booking logic. -/
structure ClassInfo where
  cid : Option Nat
  name : String
  time : String
  date : String
  spots_available : Int
  spots_total : Int
  is_booked : Bool
  booking_id : Option Nat
  can_book : Bool
  can_cancel : Bool
  trainer : String
  status : String
  atletas_count : Nat
  deriving DecidableEq

/-- New-format conversion of one `Valores` entry (skips falsy `Valor`). -/
def valorItemToClass (title : String) (vi : ValorItem) : Option ClassInfo :=
  match vi.valor with
  | none => none
  | some v =>
    let is_booked := vi.tipoEstado == "Borrable" || vi.tipoEstado == "Cambiable"
    some {
      cid := v.vid
      name := v.nombre
      time := v.horaComienzo
      date := title
      spots_available := (v.plazas : Int) - v.atletas.length
      spots_total := (v.plazas : Int)
      is_booked := is_booked
      booking_id :=
        if is_booked then
          match v.atletas with
          | a :: _ => a.aid
          | [] => none
        else none
      can_book := vi.tipoEstado == "Inscribible"
      can_cancel := vi.tipoEstado == "Borrable"
      trainer := ""
      status := vi.tipoEstado
      atletas_count := v.atletas.length }

/-- Old-format conversion of one `Datos` entry. -/
def oldItemToClass (it : OldItem) : ClassInfo :=
  { cid := it.oid
    name := it.nombre
    time := it.hora
    date := it.fecha
    spots_available := it.plazasLibres
    spots_total := it.plazasTotales
    is_booked := it.apuntado
    booking_id := none
    can_book := it.puedeApuntar
    can_cancel := false
    trainer := it.entrenador
    status := ""
    atletas_count := 0 }

/-- The class list `get_classes` produces from a (possibly malformed)
response body, after the error/maintenance checks. -/
def parseLoadClass : Option LoadClassData → List ClassInfo
  | none => []
  | some data =>
    match data.esCorrecto with
    | some false => []
    | _ =>
      if data.mantenimiento then []
      else
        match data.dataField with
        | some slots =>
          slots.flatMap (fun slot => slot.valores.filterMap (valorItemToClass data.title))
        | none => data.datos.map oldItemToClass

/-- `WodBusterClient.get_classes`: raises `SessionExpiredError` when not
logged in, otherwise normalises the body (empty list on malformed JSON,
upstream error or maintenance flag). -/
def get_classes (loggedIn : Bool) (raw : Option LoadClassData) :
    Except ScraperErr (List ClassInfo) :=
  if !loggedIn then .error (.sessionExpired "Not logged in")
  else .ok (parseLoadClass raw)

/-! ## `find_class` (`client.py` lines 899-926) -/

/-- The scan loop of `find_class`: skip entries whose truncated time
differs, return the first whose name contains the requested type
case-insensitively. -/
def findClassScan (targetTime classType : String) : List ClassInfo → Option ClassInfo
  | [] => none
  | cls :: rest =>
    if truncTime cls.time != targetTime then findClassScan targetTime classType rest
    else if containsCI cls.name classType then some cls
    else findClassScan targetTime classType rest

/-- `WodBusterClient.find_class(date, time_str, class_type)`. -/
def find_class (loggedIn : Bool) (raw : Option LoadClassData)
    (time_str class_type : String) : Except ScraperErr (Option ClassInfo) :=
  match get_classes loggedIn raw with
  | .error e => .error e
  | .ok classes => .ok (findClassScan (truncTime time_str) class_type classes)

/-- Spec-side match predicate: time with colons removed and truncated to
four characters equals the similarly truncated requested time, and the
name contains the requested substring case-insensitively. -/
def specFindMatch (time_str class_type : String) (cls : ClassInfo) : Prop :=
  truncTime cls.time = truncTime time_str ∧ containsCI cls.name class_type = true

instance (time_str class_type : String) (cls : ClassInfo) :
    Decidable (specFindMatch time_str class_type cls) := by
  unfold specFindMatch
  infer_instance

/-! ## `book_class` error classification (`client.py` lines 656-706) -/

/-- Parsed `Calendario_Inscribir.ashx` body: the optional `Res` object's
`EsCorrecto`/`ErrorMsg` and the top-level ones (`get` defaults applied
for the booleans, key presence kept for the messages). -/
structure BookApiResponse where
  res_EsCorrecto : Bool
  data_EsCorrecto : Bool
  res_ErrorMsg : Option String
  data_ErrorMsg : Option String
  deriving DecidableEq

/-- `res.get('ErrorMsg', data.get('ErrorMsg', 'Unknown error'))`. -/
def bookErrorMsg (r : BookApiResponse) : String :=
  r.res_ErrorMsg.getD (r.data_ErrorMsg.getD "Unknown error")

/-- Value of a non-empty digit run, as Python `int()`. -/
def digitsToNat (ds : List Char) : Nat :=
  ds.foldl (fun acc c => acc * 10 + (c.toNat - '0'.toNat)) 0

/-- One anchored attempt of the pattern `(\d+)\s*(minuto|segundo)`:
a maximal non-empty digit run, optional whitespace, then the unit.
Taking the digit run maximally is exact, because giving a digit back
would leave a digit where the whitespace/unit must match. The returned
flag is `true` for `minuto`. -/
def waitMatchHere (cs : List Char) : Option (Nat × Bool) :=
  let ds := cs.takeWhile Char.isDigit
  if ds.isEmpty then none
  else
    let rest := (cs.dropWhile Char.isDigit).dropWhile (fun c => c.isWhitespace)
    if listLeads "minuto".data rest then some (digitsToNat ds, true)
    else if listLeads "segundo".data rest then some (digitsToNat ds, false)
    else none

/-- Leftmost match of `(\d+)\s*(minuto|segundo)` (Python `re.search`). -/
def waitSearch : List Char → Option (Nat × Bool)
  | [] => none
  | c :: rest =>
    match waitMatchHere (c :: rest) with
    | some r => some r
    | none => waitSearch rest

/-- `re.search(r'(\d+)\s*(minuto|segundo)', s)` with the captured number
and whether the unit is minutes. -/
def parseWaitTime (s : String) : Option (Nat × Bool) :=
  waitSearch s.data

inductive BookResult where
  | success
  | failure (e : ScraperErr)
  deriving DecidableEq

/-- `WodBusterClient.book_class` outcome classification of a parsed
booking response (the logged-in, well-formed-JSON path). -/
def book_class (classId : Nat) (resp : BookApiResponse) : BookResult :=
  if resp.res_EsCorrecto || resp.data_EsCorrecto then .success
  else if strHasSub (lowerStr (bookErrorMsg resp)) "completa" ||
      strHasSub (lowerStr (bookErrorMsg resp)) "llena" then
    .failure (.classFull ("Class " ++ toString classId ++ " is full"))
  else if strHasSub (lowerStr (bookErrorMsg resp)) "penaliz" then
    match parseWaitTime (lowerStr (bookErrorMsg resp)) with
    | some (n, isMinuto) =>
      .failure (.rateLimit (bookErrorMsg resp) (if isMinuto then n * 60 else n))
    | none => .failure (.rateLimit (bookErrorMsg resp) 60)
  else .failure (.bookingError ("Booking failed: " ++ bookErrorMsg resp))

/-! ## Sample inputs used to instantiate the theorems -/

/-- Old-format 07:00 class whose name does not mention CrossFit. -/
def oldA : OldItem :=
  { oid := some 1, nombre := "Open Box", hora := "07:00", fecha := "05/05"
    plazasLibres := 3, plazasTotales := 10, apuntado := false
    puedeApuntar := true, entrenador := "" }

/-- Old-format 07:00 CrossFit class. -/
def oldB : OldItem :=
  { oid := some 2, nombre := "CrossFit WOD", hora := "07:00", fecha := "05/05"
    plazasLibres := 5, plazasTotales := 12, apuntado := false
    puedeApuntar := true, entrenador := "" }

/-- A well-formed old-format schedule payload with the two classes above. -/
def rawSample : Option LoadClassData :=
  some { esCorrecto := some true, errorMsg := none, mantenimiento := false
         dataField := none, title := "", datos := [oldA, oldB] }

/-- A penalty error message carrying a duration in minutes. -/
def penaltyMsg : String := "Tienes una penalización de 5 minutos"

/-- A non-success booking response whose error is `penaltyMsg`. -/
def respPenalty : BookApiResponse :=
  { res_EsCorrecto := false, data_EsCorrecto := false
    res_ErrorMsg := some penaltyMsg, data_ErrorMsg := none }

/-! ## Per-booking retry state machine
(`_process_single_booking_with_client`, scheduler lines 490-606)

One attempt of the `for attempt in range(1, MAX_RETRY_ATTEMPTS + 1)` body:
`find_class` either returns a class, returns `None` (→
`ClassNotFoundError`), or raises; if a class was found, `book_class`
either returns a boolean (`False` → `BookingError('Booking returned
false')`) or raises. What the upstream does on each attempt is the
environment of the state machine, supplied as a function of the attempt
number. -/

def MAX_RETRY_ATTEMPTS : Nat := 3

/-- Behaviour of `find_class` on one attempt. -/
inductive FindOutcome where
  | found (cls : ClassInfo)
  | nothing
  | raises (e : ScraperErr)
  deriving DecidableEq

/-- Behaviour of `book_class` on one attempt (consulted only when
`find_class` found a class). -/
inductive BookOutcome where
  | ret (b : Bool)
  | raises (e : ScraperErr)
  deriving DecidableEq

/-- Upstream behaviour of one attempt. -/
structure AttemptSpec where
  findRes : FindOutcome
  bookRes : BookOutcome
  deriving DecidableEq

/-- The `try` body of one attempt: either the booked class's name, or the
exception that escapes the body. -/
def runAttempt (a : AttemptSpec) : Except ScraperErr ClassInfo :=
  match a.findRes with
  | .raises e => .error e
  | .nothing => .error (.classNotFound "Class not found")
  | .found cls =>
    match a.bookRes with
    | .raises e => .error e
    | .ret true => .ok cls
    | .ret false => .error (.bookingError "Booking returned false")

/-- Whether the attempt reaches the `book_class` call (it does exactly
when `find_class` returned a class). -/
def attemptCallsBook (a : AttemptSpec) : Bool :=
  match a.findRes with
  | .found _ => true
  | _ => false

/-- Number of `book_class` calls made by the executed attempts. -/
def bookCalls (env : Nat → AttemptSpec) (executed : List Nat) : Nat :=
  (executed.filter (fun k => attemptCallsBook (env k))).length

/-- Persisted booking row (`Booking` model). -/
structure BookingRow where
  rid : Nat
  day_of_week : Nat
  day_name : String
  timeOfDay : String
  class_type : String
  status : String
  success_count : Nat
  fail_count : Nat
  last_error : Option String
  last_attempt : Option Nat
  deriving DecidableEq

/-- Outcome of the retry loop: the mutated row, the final `message`, and
the attempt numbers that were executed. -/
structure LoopOut where
  row : BookingRow
  message : String
  executed : List Nat
  deriving DecidableEq

/-- The classes of the `except` chain that neither `break` nor terminate
the loop: `ClassNotFoundError`, `BookingError`, `RateLimitError`, and the
bare-`Exception` catch-all — everything except `ClassFullError` and
`NoClassesAvailableError`. -/
def isRetryableErr : ScraperErr → Bool
  | .classFull _ => false
  | .noClassesAvailable _ => false
  | _ => true

/-- The retry loop of `_process_single_booking_with_client`, iterating
over the remaining attempt numbers (invoked with `[1, 2, 3]`).
`dateStr` renders the target date for the success message. -/
def retryGo (env : Nat → AttemptSpec) (dateStr : String) :
    List Nat → Option String → BookingRow → LoopOut
  | [], _, b => { row := b, message := "", executed := [] }
  | attempt :: rest, _lastErr, b =>
    match runAttempt (env attempt) with
    | .ok cls =>
      let baseMsg := "Booked: " ++ cls.name ++ " on " ++ dateStr
      { row := { b with status := "success", success_count := b.success_count + 1
                        last_error := none }
        message :=
          if 1 < attempt then baseMsg ++ " (attempt " ++ toString attempt ++ ")" else baseMsg
        executed := [attempt] }
    | .error e =>
      match e with
      | .classFull m =>
        { row := { b with status := "waiting", last_error := some m }
          message := "Class is full - added to waitlist"
          executed := [attempt] }
      | .noClassesAvailable m =>
        { row := { b with status := "failed", fail_count := b.fail_count + 1
                          last_error := some m }
          message := "No classes available (holiday or closed)"
          executed := [attempt] }
      | e =>
        let le := e.text
        if attempt < MAX_RETRY_ATTEMPTS then
          let out := retryGo env dateStr rest (some le) b
          { out with executed := attempt :: out.executed }
        else
          { row := { b with status := "failed", fail_count := b.fail_count + 1
                            last_error := some le }
            message := le ++ " (after " ++ toString MAX_RETRY_ATTEMPTS ++ " attempts)"
            executed := [attempt] }

/-- The full retry loop, attempts 1 through `MAX_RETRY_ATTEMPTS`. -/
def retryLoop (env : Nat → AttemptSpec) (dateStr : String) (b : BookingRow) : LoopOut :=
  retryGo env dateStr [1, 2, 3] none b

/-- `BookingLog` row. -/
structure LogRow where
  booking_id : Nat
  status : String
  message : Option String
  target_date : Option Nat
  deriving DecidableEq

/-- Result dict returned by `_process_single_booking_with_client`. -/
structure ProcResult where
  user_id : Nat
  status : String
  day_name : String
  timeOfDay : String
  class_type : String
  message : String
  target_date : Option Nat
  deriving DecidableEq

/-- Rendering of the target date inside messages; the calendar formatting
is abstracted to the absolute day index. -/
def dateRepr (n : Nat) : String := toString n

/-- `_process_single_booking_with_client`: compute the target date, run
the retry loop, stamp `last_attempt`, create exactly one `BookingLog`
entry, and return the result record. Returns the updated row, the list of
log rows created by this call, and the result. -/
def processSingleBookingWithClient (env : Nat → AttemptSpec) (todayAbs nowTs uid : Nat)
    (b : BookingRow) : BookingRow × List LogRow × ProcResult :=
  let target := computeTargetDate todayAbs b.day_of_week
  let out := retryLoop env (dateRepr target) b
  let b2 := { out.row with last_attempt := some nowTs }
  let lg : LogRow :=
    { booking_id := b.rid
      status := b2.status
      message := if out.message = "" then none else some (String.mk (out.message.data.take 500))
      target_date := some target }
  (b2, [lg], { user_id := uid
               status := b2.status
               day_name := b.day_name
               timeOfDay := b.timeOfDay
               class_type := b.class_type
               message := out.message
               target_date := some target })

/-! ## Per-user worker (`_process_user_bookings`, scheduler lines 395-487)

The worker first restores the stored session, falling back to a fresh
login; a failed fallback (or missing credentials) fails every booking of
the user with a session message, touching neither the `Booking` rows nor
the `BookingLog` table. Whether `restore_session`/`login` succeed is the
worker's environment. -/

/-- `User` row as the worker reads it (cookie jars are opaque). -/
structure UserRow where
  uid : Nat
  wodbuster_email : Option String
  wodbuster_password : Option String
  wodbuster_cookies : Option Nat
  deriving DecidableEq

/-- Behaviour of `client.login` when invoked: new cookies, or a
`LoginError` message. -/
inductive LoginOutcome where
  | ok (cookies : Nat)
  | raisesLogin (msg : String)
  deriving DecidableEq

/-- One entry of `booking_data_list` (the dict built by the orchestrator). -/
structure BookingData where
  bid : Nat
  day_of_week : Nat
  day_name : String
  timeOfDay : String
  class_type : String
  deriving DecidableEq

/-- `Booking.query.get(booking_data['id'])`. -/
def dbLookup (db : List BookingRow) (i : Nat) : Option BookingRow :=
  db.find? (fun r => r.rid == i)

/-- Commit of a mutated row back into the table. -/
def dbUpdate (db : List BookingRow) (row : BookingRow) : List BookingRow :=
  db.map (fun r => if r.rid == row.rid then row else r)

/-- The per-booking loop at the end of `_process_user_bookings`: fetch
each row (skipping ids that are gone), process it, collect the result.
Returns the updated table, the created log rows, and the results. -/
def processBookingsLoop (benv : Nat → Nat → AttemptSpec) (todayAbs nowTs uid : Nat) :
    List BookingData → List BookingRow → List BookingRow × List LogRow × List ProcResult
  | [], db => (db, [], [])
  | bd :: rest, db =>
    match dbLookup db bd.bid with
    | none => processBookingsLoop benv todayAbs nowTs uid rest db
    | some row =>
      let step := processSingleBookingWithClient (benv bd.bid) todayAbs nowTs uid row
      let next := processBookingsLoop benv todayAbs nowTs uid rest (dbUpdate db step.1)
      (next.1, step.2.1 ++ next.2.1, step.2.2 :: next.2.2)

/-- What `_process_user_bookings` produces: the result records, the
`Booking` table image, the `BookingLog` rows created, and the cookie set
committed by a successful re-login. -/
structure UserRunOut where
  results : List ProcResult
  db : List BookingRow
  logs : List LogRow
  savedCookies : Option Nat

/-- The failure record appended per booking on the setup-failure paths. -/
def failedSetupResult (uid : Nat) (msg : String) (bd : BookingData) : ProcResult :=
  { user_id := uid
    status := "failed"
    day_name := bd.day_name
    timeOfDay := bd.timeOfDay
    class_type := bd.class_type
    message := msg
    target_date := none }

/-- `_process_user_bookings` for one user: try `restore_session` on the
stored cookies, fall back to `login` with the stored credentials; a
`LoginError` or missing credentials fail every booking with a session
message and return at once; a valid session runs the per-booking loop. -/
def processUserBookings (benv : Nat → Nat → AttemptSpec) (todayAbs nowTs : Nat)
    (user : UserRow) (bookingDataList : List BookingData) (db : List BookingRow)
    (restoreOk : Bool) (loginRes : LoginOutcome) : UserRunOut :=
  let session_valid :=
    match user.wodbuster_cookies with
    | some _ => restoreOk
    | none => false
  if session_valid then
    let run := processBookingsLoop benv todayAbs nowTs user.uid bookingDataList db
    { results := run.2.2, db := run.1, logs := run.2.1, savedCookies := none }
  else
    match user.wodbuster_password, user.wodbuster_email with
    | some _, some _ =>
      match loginRes with
      | .ok c =>
        let run := processBookingsLoop benv todayAbs nowTs user.uid bookingDataList db
        { results := run.2.2, db := run.1, logs := run.2.1, savedCookies := some c }
      | .raisesLogin m =>
        { results := bookingDataList.map
            (failedSetupResult user.uid ("Session expired and re-login failed: " ++ m))
          db := db
          logs := []
          savedCookies := none }
    | _, _ =>
      { results := bookingDataList.map
          (failedSetupResult user.uid "Session expired and no credentials stored")
        db := db
        logs := []
        savedCookies := none }

/-! ## Parallel orchestration (`run_scheduled_bookings_for_box`)

Workers run one per user and share no mutable state: each reads and
writes only its own user's rows, so the concurrent fan-out is modelled as
the list of independent per-user runs keyed by user id. -/

/-- Everything one user's worker depends on. -/
structure UserTask where
  user : UserRow
  data : List BookingData
  db : List BookingRow
  restoreOk : Bool
  loginRes : LoginOutcome
  benv : Nat → Nat → AttemptSpec

/-- One worker. -/
def runUser (todayAbs nowTs : Nat) (t : UserTask) : UserRunOut :=
  processUserBookings t.benv todayAbs nowTs t.user t.data t.db t.restoreOk t.loginRes

/-- The fan-out over all users, collected as `results_by_user`. -/
def runAllUsers (todayAbs nowTs : Nat) (ts : List UserTask) : List (Nat × UserRunOut) :=
  ts.map (fun t => (t.user.uid, runUser todayAbs nowTs t))

/-! ## Sample retry environments and rows for the theorem instances -/

/-- A pending Monday 07:00 CrossFit booking row. -/
def rowSample : BookingRow :=
  { rid := 11, day_of_week := 0, day_name := "Monday", timeOfDay := "07:00"
    class_type := "CrossFit", status := "pending", success_count := 0
    fail_count := 0, last_error := none, last_attempt := none }

/-- Every attempt finds the class and `book_class` raises `ClassFullError`. -/
def envClassFull : Nat → AttemptSpec := fun _ =>
  { findRes := .found (oldItemToClass oldB), bookRes := .raises (.classFull "Class 2 is full") }

/-- Attempt 1 finds nothing (`ClassNotFoundError`); later attempts book
successfully. -/
def envRetryThenOk : Nat → AttemptSpec := fun k =>
  if k = 1 then { findRes := .nothing, bookRes := .ret true }
  else { findRes := .found (oldItemToClass oldB), bookRes := .ret true }

/-- A user task whose session restore and re-login both fail. -/
def taskLoginFail : UserTask :=
  { user := { uid := 7, wodbuster_email := some "a@b.c", wodbuster_password := some "pw"
              wodbuster_cookies := some 3 }
    data := [{ bid := 11, day_of_week := 0, day_name := "Monday", timeOfDay := "07:00"
               class_type := "CrossFit" }]
    db := [rowSample]
    restoreOk := false
    loginRes := .raisesLogin "Invalid email or password"
    benv := fun _ _ => { findRes := .nothing, bookRes := .ret true } }

end WodSniper

namespace WodSniper

/-- C1: the retry state machine's computed target date always falls on the
booking's `day_of_week` and is strictly after today; when today's weekday
already equals `day_of_week` the date is pushed a full week out, because a
zero-or-negative offset is advanced by 7 days. -/
theorem target_date_weekday_future (todayAbs dow : Nat) (hdow : dow < 7) :
    computeTargetDate todayAbs dow % 7 = dow ∧
    todayAbs < computeTargetDate todayAbs dow ∧
    (todayAbs % 7 = dow → computeTargetDate todayAbs dow = todayAbs + 7) := by
  unfold computeTargetDate daysAheadAdj daysAheadRaw
  split <;> omega

/-- Witness for `target_date_weekday_future` at a concrete Monday
(day 700 ≡ 0 mod 7) and a Monday booking. -/
theorem target_date_weekday_future_instance :
    computeTargetDate 700 0 % 7 = 0 ∧
    700 < computeTargetDate 700 0 ∧
    (700 % 7 = 0 → computeTargetDate 700 0 = 700 + 7) :=
  target_date_weekday_future 700 0 (by decide)

/-- C9: a tick of the window detector at (day `d`, hour `h`, minute `m`)
fires exactly the boxes whose configured schedule equals the instant five
minutes ahead — minute overflow carried into the hour — and fires nothing
at all when the lookahead would cross into the next day. -/
theorem booking_window_lookahead (boxes : List BoxSched) (d h m : Nat)
    (hh : h < 24) (hm : m < 60) (b : BoxSched)
    (hbh : b.booking_open_hour < 24) (hbm : b.booking_open_minute < 60) :
    (h * 60 + m + 5 < 1440 →
      (b ∈ check_booking_windows boxes d h m ↔
        b ∈ boxes ∧
          schedInstant b.booking_open_day b.booking_open_hour b.booking_open_minute =
            schedInstant d h m + 5)) ∧
    (1440 ≤ h * 60 + m + 5 → check_booking_windows boxes d h m = []) := by
  simp only [check_booking_windows, schedInstant]
  constructor
  · intro hlt
    split
    · rename_i hge
      exact absurd hge (by omega)
    · rw [List.mem_filter]
      simp only [Bool.and_eq_true, beq_iff_eq]
      constructor
      · intro hx
        obtain ⟨hmem, hrest⟩ := hx
        have h1 := hrest.1.1
        have h2 := hrest.1.2
        have h3 := hrest.2
        exact ⟨hmem, by omega⟩
      · intro hx
        obtain ⟨hmem, heq⟩ := hx
        exact ⟨hmem, ⟨by omega, by omega⟩, by omega⟩
  · intro hge
    split
    · rfl
    · rename_i hlt
      exact absurd hge (by omega)

/-- Witness for `booking_window_lookahead`: at Tuesday 12:58 a box opening
Tuesday 13:03 is fired, and the 23:59 tick fires nothing. -/
theorem booking_window_lookahead_instance :
    (12 * 60 + 58 + 5 < 1440 →
      (BoxSched.mk 1 1 13 3 ∈
          check_booking_windows [BoxSched.mk 1 1 13 3] 1 12 58 ↔
        BoxSched.mk 1 1 13 3 ∈ [BoxSched.mk 1 1 13 3] ∧
          schedInstant 1 13 3 = schedInstant 1 12 58 + 5)) ∧
    (1440 ≤ 12 * 60 + 58 + 5 → check_booking_windows [BoxSched.mk 1 1 13 3] 1 12 58 = []) :=
  booking_window_lookahead [BoxSched.mk 1 1 13 3] 1 12 58 (by decide) (by decide)
    (BoxSched.mk 1 1 13 3) (by decide) (by decide)

/-! ### `find_class` (C5) -/

theorem findClassScan_eq_some (t c : String) :
    ∀ (l : List ClassInfo) (cls : ClassInfo), findClassScan t c l = some cls →
      (truncTime cls.time = t ∧ containsCI cls.name c = true) ∧
      ∃ pre post, l = pre ++ cls :: post ∧
        ∀ x ∈ pre, ¬ (truncTime x.time = t ∧ containsCI x.name c = true) := by
  intro l
  induction l with
  | nil => intro cls h; simp [findClassScan] at h
  | cons x xs ih =>
    intro cls h
    unfold findClassScan at h
    by_cases ht : truncTime x.time = t
    · rw [show (truncTime x.time != t) = false by simp [ht]] at h
      simp only [Bool.false_eq_true, if_false] at h
      by_cases hc : containsCI x.name c = true
      · rw [if_pos hc] at h
        obtain rfl : x = cls := by injection h
        exact ⟨⟨ht, hc⟩, [], xs, rfl, by simp⟩
      · rw [if_neg hc] at h
        obtain ⟨hm, pre, post, heq, hpre⟩ := ih cls h
        refine ⟨hm, x :: pre, post, by rw [heq, List.cons_append], ?_⟩
        intro y hy
        rcases List.mem_cons.mp hy with rfl | hy
        · exact fun hcon => hc hcon.2
        · exact hpre y hy
    · rw [show (truncTime x.time != t) = true by simp [bne_iff_ne, ht]] at h
      simp only [if_true] at h
      obtain ⟨hm, pre, post, heq, hpre⟩ := ih cls h
      refine ⟨hm, x :: pre, post, by rw [heq, List.cons_append], ?_⟩
      intro y hy
      rcases List.mem_cons.mp hy with rfl | hy
      · exact fun hcon => ht hcon.1
      · exact hpre y hy

theorem findClassScan_eq_none (t c : String) :
    ∀ (l : List ClassInfo),
      (∀ x ∈ l, ¬ (truncTime x.time = t ∧ containsCI x.name c = true)) →
      findClassScan t c l = none := by
  intro l
  induction l with
  | nil => intro _; rfl
  | cons x xs ih =>
    intro hall
    unfold findClassScan
    have hxs := fun y hy => hall y (List.mem_cons_of_mem x hy)
    by_cases ht : truncTime x.time = t
    · have hc : ¬ containsCI x.name c = true :=
        fun hcon => hall x (List.mem_cons_self x xs) ⟨ht, hcon⟩
      rw [show (truncTime x.time != t) = false by simp [ht]]
      simp only [Bool.false_eq_true, if_false]
      rw [if_neg hc]
      exact ih hxs
    · rw [show (truncTime x.time != t) = true by simp [bne_iff_ne, ht]]
      simp only [if_true]
      exact ih hxs

/-- C5: `find_class` returns the first fetched class whose time — colons
removed, truncated to four characters — equals the similarly truncated
requested time and whose name contains the requested substring
case-insensitively; when no class matches it returns `none` rather than
an error. -/
theorem find_class_first_match_or_none (raw : Option LoadClassData)
    (time_str class_type : String) :
    (∀ cls, find_class true raw time_str class_type = .ok (some cls) →
      specFindMatch time_str class_type cls ∧
      ∃ pre post, parseLoadClass raw = pre ++ cls :: post ∧
        ∀ x ∈ pre, ¬ specFindMatch time_str class_type x) ∧
    ((∀ x ∈ parseLoadClass raw, ¬ specFindMatch time_str class_type x) →
      find_class true raw time_str class_type = .ok none) := by
  have hfc : find_class true raw time_str class_type =
      .ok (findClassScan (truncTime time_str) class_type (parseLoadClass raw)) := rfl
  constructor
  · intro cls h
    rw [hfc] at h
    have h2 : findClassScan (truncTime time_str) class_type (parseLoadClass raw) = some cls := by
      injection h
    obtain ⟨hm, pre, post, heq, hpre⟩ := findClassScan_eq_some _ _ _ cls h2
    exact ⟨hm, pre, post, heq, hpre⟩
  · intro hall
    rw [hfc, findClassScan_eq_none _ _ _ hall]

/-- Witness for `find_class_first_match_or_none`: on a two-entry old-format
payload where only the second 07:00 class is named "CrossFit WOD", the
search returns that class and the non-matching 07:00 class sits before it. -/
theorem find_class_first_match_or_none_instance :
    specFindMatch "07:00" "cross" (oldItemToClass oldB) ∧
    ∃ pre post, parseLoadClass rawSample = pre ++ oldItemToClass oldB :: post ∧
      ∀ x ∈ pre, ¬ specFindMatch "07:00" "cross" x :=
  (find_class_first_match_or_none rawSample "07:00" "cross").1 (oldItemToClass oldB) rfl

/-! ### `get_classes` error handling (C7) -/

/-- C7: `get_classes` with no valid session raises `SessionExpiredError`
whatever the response would be; when logged in, a missing/malformed JSON
body yields the empty list instead of an error. -/
theorem get_classes_session_and_malformed :
    (∀ raw, get_classes false raw = .error (.sessionExpired "Not logged in")) ∧
    get_classes true none = .ok [] :=
  ⟨fun _ => rfl, rfl⟩

/-! ### `book_class` classification (C6) -/

theorem lowerStr_completa : lowerStr "completa" = "completa" := by decide

theorem lowerStr_llena : lowerStr "llena" = "llena" := by decide

theorem lowerStr_penaliz : lowerStr "penaliz" = "penaliz" := by decide

theorem containsCI_completa (m : String) :
    containsCI m "completa" = strHasSub (lowerStr m) "completa" := by
  unfold containsCI
  rw [lowerStr_completa]

theorem containsCI_llena (m : String) :
    containsCI m "llena" = strHasSub (lowerStr m) "llena" := by
  unfold containsCI
  rw [lowerStr_llena]

theorem containsCI_penaliz (m : String) :
    containsCI m "penaliz" = strHasSub (lowerStr m) "penaliz" := by
  unfold containsCI
  rw [lowerStr_penaliz]

/-- C6: `book_class` classifies a non-success response by keyword — a
capacity phrase (`completa`/`llena`, case-insensitive) raises
`ClassFullError`; otherwise a penalty phrase (`penaliz`) raises
`RateLimitError` carrying the duration parsed from the message in seconds
(minutes multiplied by 60, default 60 when no duration parses); anything
else raises a generic `BookingError`; a success flag returns true. -/
theorem book_class_error_classification (classId : Nat) (resp : BookApiResponse) :
    ((resp.res_EsCorrecto || resp.data_EsCorrecto) = true →
      book_class classId resp = .success) ∧
    ((resp.res_EsCorrecto || resp.data_EsCorrecto) = false →
      (containsCI (bookErrorMsg resp) "completa" ||
        containsCI (bookErrorMsg resp) "llena") = true →
      book_class classId resp =
        .failure (.classFull ("Class " ++ toString classId ++ " is full"))) ∧
    ((resp.res_EsCorrecto || resp.data_EsCorrecto) = false →
      (containsCI (bookErrorMsg resp) "completa" ||
        containsCI (bookErrorMsg resp) "llena") = false →
      containsCI (bookErrorMsg resp) "penaliz" = true →
      ∀ n isMinuto, parseWaitTime (lowerStr (bookErrorMsg resp)) = some (n, isMinuto) →
        book_class classId resp =
          .failure (.rateLimit (bookErrorMsg resp) (if isMinuto then n * 60 else n))) ∧
    ((resp.res_EsCorrecto || resp.data_EsCorrecto) = false →
      (containsCI (bookErrorMsg resp) "completa" ||
        containsCI (bookErrorMsg resp) "llena") = false →
      containsCI (bookErrorMsg resp) "penaliz" = true →
      parseWaitTime (lowerStr (bookErrorMsg resp)) = none →
      book_class classId resp = .failure (.rateLimit (bookErrorMsg resp) 60)) ∧
    ((resp.res_EsCorrecto || resp.data_EsCorrecto) = false →
      (containsCI (bookErrorMsg resp) "completa" ||
        containsCI (bookErrorMsg resp) "llena") = false →
      containsCI (bookErrorMsg resp) "penaliz" = false →
      book_class classId resp =
        .failure (.bookingError ("Booking failed: " ++ bookErrorMsg resp))) := by
  refine ⟨?_, ?_, ?_, ?_, ?_⟩
  · intro h
    simp [book_class, h]
  · intro h hcap
    rw [containsCI_completa, containsCI_llena] at hcap
    simp [book_class, h, hcap]
  · intro h hcap hpen n isMinuto hparse
    rw [containsCI_completa, containsCI_llena] at hcap
    rw [containsCI_penaliz] at hpen
    simp [book_class, h, hcap, hpen, hparse]
  · intro h hcap hpen hparse
    rw [containsCI_completa, containsCI_llena] at hcap
    rw [containsCI_penaliz] at hpen
    simp [book_class, h, hcap, hpen, hparse]
  · intro h hcap hpen
    rw [containsCI_completa, containsCI_llena] at hcap
    rw [containsCI_penaliz] at hpen
    simp [book_class, h, hcap, hpen]

/-- Witness for `book_class_error_classification`: a penalty message
announcing 5 minutes yields a `RateLimitError` with `retry_after = 300`. -/
theorem book_class_error_classification_instance :
    book_class 9 respPenalty = .failure (.rateLimit penaltyMsg 300) :=
  (book_class_error_classification 9 respPenalty).2.2.1 (by decide) (by decide) (by decide)
    5 true (by decide)

/-! ### Retry state machine step lemmas -/

theorem retryGo_success_step (env : Nat → AttemptSpec) (d : String) (a : Nat)
    (rest : List Nat) (le : Option String) (b : BookingRow) (cls : ClassInfo)
    (h : runAttempt (env a) = .ok cls) :
    retryGo env d (a :: rest) le b =
      { row := { b with status := "success", success_count := b.success_count + 1
                        last_error := none }
        message :=
          if 1 < a then "Booked: " ++ cls.name ++ " on " ++ d ++ " (attempt " ++ toString a ++ ")"
          else "Booked: " ++ cls.name ++ " on " ++ d
        executed := [a] } := by
  simp [retryGo, h]

theorem retryGo_classFull_step (env : Nat → AttemptSpec) (d : String) (a : Nat)
    (rest : List Nat) (le : Option String) (b : BookingRow) (m : String)
    (h : runAttempt (env a) = .error (.classFull m)) :
    retryGo env d (a :: rest) le b =
      { row := { b with status := "waiting", last_error := some m }
        message := "Class is full - added to waitlist"
        executed := [a] } := by
  simp [retryGo, h]

theorem retryGo_noClasses_step (env : Nat → AttemptSpec) (d : String) (a : Nat)
    (rest : List Nat) (le : Option String) (b : BookingRow) (m : String)
    (h : runAttempt (env a) = .error (.noClassesAvailable m)) :
    retryGo env d (a :: rest) le b =
      { row := { b with status := "failed", fail_count := b.fail_count + 1
                        last_error := some m }
        message := "No classes available (holiday or closed)"
        executed := [a] } := by
  simp [retryGo, h]

theorem retryGo_retry_step (env : Nat → AttemptSpec) (d : String) (a : Nat)
    (rest : List Nat) (le : Option String) (b : BookingRow) (e : ScraperErr)
    (h : runAttempt (env a) = .error e) (hre : isRetryableErr e = true)
    (hlt : a < MAX_RETRY_ATTEMPTS) :
    retryGo env d (a :: rest) le b =
      { row := (retryGo env d rest (some e.text) b).row
        message := (retryGo env d rest (some e.text) b).message
        executed := a :: (retryGo env d rest (some e.text) b).executed } := by
  cases e <;> simp_all [retryGo, isRetryableErr, ScraperErr.text]

theorem retryGo_last_step (env : Nat → AttemptSpec) (d : String) (a : Nat)
    (rest : List Nat) (le : Option String) (b : BookingRow) (e : ScraperErr)
    (h : runAttempt (env a) = .error e) (hre : isRetryableErr e = true)
    (hge : ¬ a < MAX_RETRY_ATTEMPTS) :
    retryGo env d (a :: rest) le b =
      { row := { b with status := "failed", fail_count := b.fail_count + 1
                        last_error := some e.text }
        message := e.text ++ " (after " ++ toString MAX_RETRY_ATTEMPTS ++ " attempts)"
        executed := [a] } := by
  cases e <;> simp_all [retryGo, isRetryableErr, ScraperErr.text]

theorem retryGo_length_le (env : Nat → AttemptSpec) (d : String) :
    ∀ (l : List Nat) (le : Option String) (b : BookingRow),
      (retryGo env d l le b).executed.length ≤ l.length := by
  intro l
  induction l with
  | nil => intro le b; simp [retryGo]
  | cons a rest ih =>
    intro le b
    cases h : runAttempt (env a) with
    | ok cls =>
      rw [retryGo_success_step env d a rest le b cls h]
      simp
    | error e =>
      by_cases hre : isRetryableErr e = true
      · by_cases hlt : a < MAX_RETRY_ATTEMPTS
        · rw [retryGo_retry_step env d a rest le b e h hre hlt]
          simpa using Nat.succ_le_succ (ih (some e.text) b)
        · rw [retryGo_last_step env d a rest le b e h hre hlt]
          simp
      · have hterm : (∃ m, e = .classFull m) ∨ (∃ m, e = .noClassesAvailable m) := by
          cases e <;> simp_all [isRetryableErr]
        rcases hterm with ⟨m, rfl⟩ | ⟨m, rfl⟩
        · rw [retryGo_classFull_step env d a rest le b m h]
          simp
        · rw [retryGo_noClasses_step env d a rest le b m h]
          simp

theorem bookCalls_concat (env : Nat → AttemptSpec) (l : List Nat) (k : Nat)
    (h : attemptCallsBook (env k) = true) :
    bookCalls env (l ++ [k]) = bookCalls env l + 1 := by
  simp [bookCalls, List.filter_append, h]

/-! ### Claims about the retry state machine (C2, C3) -/

/-- C2: whenever an attempt raises `ClassFullError`, the retry machine
stops right there with terminal status `waiting`: only attempts `1..k`
execute, and exactly one `book_class` call is made from the
`ClassFullError` onward (the one that raised it) — never a retry. -/
theorem classFull_terminates_waiting (env : Nat → AttemptSpec) (d : String) (b : BookingRow)
    (k : Nat) (m : String) (cls : ClassInfo) (hk1 : 1 ≤ k) (hk3 : k ≤ MAX_RETRY_ATTEMPTS)
    (hprev : ∀ j, 1 ≤ j → j < k →
      ∃ e, runAttempt (env j) = .error e ∧ isRetryableErr e = true)
    (henv : env k = { findRes := .found cls, bookRes := .raises (.classFull m) }) :
    (retryLoop env d b).row.status = "waiting" ∧
    (retryLoop env d b).message = "Class is full - added to waitlist" ∧
    (retryLoop env d b).executed = List.range' 1 k ∧
    bookCalls env (retryLoop env d b).executed =
      bookCalls env (List.range' 1 (k - 1)) + 1 := by
  have hck : runAttempt (env k) = .error (.classFull m) := by rw [henv]; rfl
  have hbk : attemptCallsBook (env k) = true := by rw [henv]; rfl
  have hk3' : k ≤ 3 := hk3
  interval_cases k
  · unfold retryLoop
    rw [retryGo_classFull_step env d 1 [2, 3] none b m hck]
    refine ⟨rfl, rfl, rfl, ?_⟩
    show bookCalls env ([] ++ [1]) = bookCalls env [] + 1
    exact bookCalls_concat env [] 1 hbk
  · obtain ⟨e1, he1, hr1⟩ := hprev 1 (by omega) (by omega)
    unfold retryLoop
    rw [retryGo_retry_step env d 1 [2, 3] none b e1 he1 hr1 (by decide)]
    rw [retryGo_classFull_step env d 2 [3] (some e1.text) b m hck]
    refine ⟨rfl, rfl, rfl, ?_⟩
    show bookCalls env ([1] ++ [2]) = bookCalls env [1] + 1
    exact bookCalls_concat env [1] 2 hbk
  · obtain ⟨e1, he1, hr1⟩ := hprev 1 (by omega) (by omega)
    obtain ⟨e2, he2, hr2⟩ := hprev 2 (by omega) (by omega)
    unfold retryLoop
    rw [retryGo_retry_step env d 1 [2, 3] none b e1 he1 hr1 (by decide)]
    rw [retryGo_retry_step env d 2 [3] (some e1.text) b e2 he2 hr2 (by decide)]
    rw [retryGo_classFull_step env d 3 [] (some e2.text) b m hck]
    refine ⟨rfl, rfl, rfl, ?_⟩
    show bookCalls env ([1, 2] ++ [3]) = bookCalls env [1, 2] + 1
    exact bookCalls_concat env [1, 2] 3 hbk

/-- Witness for `classFull_terminates_waiting`: `book_class` raising
`ClassFullError` on the first attempt ends the run in `waiting` after one
attempt and one `book_class` call. -/
theorem classFull_terminates_waiting_instance :
    (retryLoop envClassFull "700" rowSample).row.status = "waiting" ∧
    (retryLoop envClassFull "700" rowSample).message = "Class is full - added to waitlist" ∧
    (retryLoop envClassFull "700" rowSample).executed = List.range' 1 1 ∧
    bookCalls envClassFull (retryLoop envClassFull "700" rowSample).executed =
      bookCalls envClassFull (List.range' 1 (1 - 1)) + 1 :=
  classFull_terminates_waiting envClassFull "700" rowSample 1 "Class 2 is full"
    (oldItemToClass oldB) (by decide) (by decide) (by intro j h1 h2; omega) rfl

/-- C3: the retryable error kinds drive at most `MAX_RETRY_ATTEMPTS` (3)
attempts: the machine never executes more than 3; a success on attempt
`k ≤ 3` (after retryable failures) executes exactly attempts `1..k` and
ends in `success`; three retryable failures end in terminal `failed` with
`fail_count` incremented and the last error message annotated with the
attempt count. -/
theorem retryable_attempt_policy (env : Nat → AttemptSpec) (d : String) (b : BookingRow) :
    (retryLoop env d b).executed.length ≤ MAX_RETRY_ATTEMPTS ∧
    (∀ k cls, 1 ≤ k → k ≤ MAX_RETRY_ATTEMPTS →
      (∀ j, 1 ≤ j → j < k →
        ∃ e, runAttempt (env j) = .error e ∧ isRetryableErr e = true) →
      runAttempt (env k) = .ok cls →
      (retryLoop env d b).executed = List.range' 1 k ∧
      (retryLoop env d b).row.status = "success" ∧
      (retryLoop env d b).row.success_count = b.success_count + 1 ∧
      (retryLoop env d b).row.last_error = none) ∧
    (∀ e3, (∀ j, 1 ≤ j → j ≤ MAX_RETRY_ATTEMPTS →
        ∃ e, runAttempt (env j) = .error e ∧ isRetryableErr e = true) →
      runAttempt (env 3) = .error e3 →
      (retryLoop env d b).executed = List.range' 1 MAX_RETRY_ATTEMPTS ∧
      (retryLoop env d b).row.status = "failed" ∧
      (retryLoop env d b).row.fail_count = b.fail_count + 1 ∧
      (retryLoop env d b).row.last_error = some e3.text ∧
      (retryLoop env d b).message =
        e3.text ++ " (after " ++ toString MAX_RETRY_ATTEMPTS ++ " attempts)") := by
  refine ⟨retryGo_length_le env d [1, 2, 3] none b, ?_, ?_⟩
  · intro k cls hk1 hk3 hprev hok
    have hk3' : k ≤ 3 := hk3
    interval_cases k
    · unfold retryLoop
      rw [retryGo_success_step env d 1 [2, 3] none b cls hok]
      exact ⟨rfl, rfl, rfl, rfl⟩
    · obtain ⟨e1, he1, hr1⟩ := hprev 1 (by omega) (by omega)
      unfold retryLoop
      rw [retryGo_retry_step env d 1 [2, 3] none b e1 he1 hr1 (by decide)]
      rw [retryGo_success_step env d 2 [3] (some e1.text) b cls hok]
      exact ⟨rfl, rfl, rfl, rfl⟩
    · obtain ⟨e1, he1, hr1⟩ := hprev 1 (by omega) (by omega)
      obtain ⟨e2, he2, hr2⟩ := hprev 2 (by omega) (by omega)
      unfold retryLoop
      rw [retryGo_retry_step env d 1 [2, 3] none b e1 he1 hr1 (by decide)]
      rw [retryGo_retry_step env d 2 [3] (some e1.text) b e2 he2 hr2 (by decide)]
      rw [retryGo_success_step env d 3 [] (some e2.text) b cls hok]
      exact ⟨rfl, rfl, rfl, rfl⟩
  · intro e3 hall he3
    obtain ⟨e1, he1, hr1⟩ := hall 1 (by omega) (by decide)
    obtain ⟨e2, he2, hr2⟩ := hall 2 (by omega) (by decide)
    obtain ⟨e3x, he3x, hr3x⟩ := hall 3 (by omega) (by decide)
    have he3eq : e3x = e3 := by
      rw [he3x] at he3
      injection he3
    subst he3eq
    unfold retryLoop
    rw [retryGo_retry_step env d 1 [2, 3] none b e1 he1 hr1 (by decide)]
    rw [retryGo_retry_step env d 2 [3] (some e1.text) b e2 he2 hr2 (by decide)]
    rw [retryGo_last_step env d 3 [] (some e2.text) b e3x he3x hr3x (by decide)]
    exact ⟨rfl, rfl, rfl, rfl, rfl⟩

/-- Witness for `retryable_attempt_policy`: a `ClassNotFoundError` on
attempt 1 followed by a successful booking on attempt 2 executes exactly
two attempts and ends in `success`. -/
theorem retryable_attempt_policy_instance :
    (retryLoop envRetryThenOk "700" rowSample).executed = List.range' 1 2 ∧
    (retryLoop envRetryThenOk "700" rowSample).row.status = "success" ∧
    (retryLoop envRetryThenOk "700" rowSample).row.success_count = rowSample.success_count + 1 ∧
    (retryLoop envRetryThenOk "700" rowSample).row.last_error = none :=
  (retryable_attempt_policy envRetryThenOk "700" rowSample).2.1 2 (oldItemToClass oldB)
    (by decide) (by decide)
    (by
      intro j h1 h2
      have hj : j = 1 := by omega
      subst hj
      exact ⟨.classNotFound "Class not found", rfl, rfl⟩)
    rfl

/-! ### One log row per processed booking (C4) -/

/-- C4: every booking processed through the retry machine creates exactly
one `BookingLog` row — for that booking, carrying the terminal status —
whatever the attempt outcomes; and across a user's whole run the loop
creates exactly one log row per produced result record. -/
theorem one_log_per_processed_booking :
    (∀ (env : Nat → AttemptSpec) (todayAbs nowTs uid : Nat) (b : BookingRow),
      ∃ lg, (processSingleBookingWithClient env todayAbs nowTs uid b).2.1 = [lg] ∧
        lg.booking_id = b.rid ∧
        lg.status = (processSingleBookingWithClient env todayAbs nowTs uid b).1.status) ∧
    (∀ (benv : Nat → Nat → AttemptSpec) (todayAbs nowTs uid : Nat)
        (data : List BookingData) (db : List BookingRow),
      (processBookingsLoop benv todayAbs nowTs uid data db).2.1.length =
        (processBookingsLoop benv todayAbs nowTs uid data db).2.2.length) := by
  constructor
  · intro env todayAbs nowTs uid b
    exact ⟨_, rfl, rfl, rfl⟩
  · intro benv todayAbs nowTs uid data
    induction data with
    | nil => intro db; rfl
    | cons bd rest ih =>
      intro db
      simp only [processBookingsLoop]
      cases dbLookup db bd.bid with
      | none => exact ih db
      | some row =>
        simp only [List.length_append, List.length_cons]
        rw [ih (dbUpdate db (processSingleBookingWithClient (benv bd.bid) todayAbs nowTs uid row).1)]
        have hone :
            (processSingleBookingWithClient (benv bd.bid) todayAbs nowTs uid row).2.1.length = 1 :=
          rfl
        omega

/-! ### Per-user setup failure (C8, C10) -/

theorem listLeads_append (p a b : List Char) (h : listLeads p a = true) :
    listLeads p (a ++ b) = true := by
  induction p generalizing a with
  | nil => simp [listLeads]
  | cons c cs ih =>
    cases a with
    | nil => simp [listLeads] at h
    | cons x xs =>
      simp only [listLeads, Bool.and_eq_true, beq_iff_eq] at h
      simp only [List.cons_append, listLeads, Bool.and_eq_true, beq_iff_eq]
      exact ⟨h.1, ih xs h.2⟩

/-- Shared description of the setup-failure path of
`_process_user_bookings`: restore failed and the credential fallback is
unavailable or raises `LoginError`. The worker returns one failure record
per booking — its message starting with "Session expired" — and performs
no other work. -/
theorem runUser_setup_failure (todayAbs nowTs : Nat) (t : UserTask)
    (hfail : t.user.wodbuster_cookies = none ∨ t.restoreOk = false)
    (hcreds : t.user.wodbuster_password = none ∨ t.user.wodbuster_email = none ∨
      ∃ m, t.loginRes = .raisesLogin m) :
    ∃ msg, listLeads "Session expired".data msg.data = true ∧
      runUser todayAbs nowTs t =
        { results := t.data.map (failedSetupResult t.user.uid msg)
          db := t.db
          logs := []
          savedCookies := none } := by
  have hsv : (match t.user.wodbuster_cookies with
      | some _ => t.restoreOk
      | none => false) = false := by
    rcases hfail with h | h
    · rw [h]
    · cases t.user.wodbuster_cookies <;> simp [h]
  unfold runUser processUserBookings
  rw [hsv]
  simp only [Bool.false_eq_true, if_false]
  cases hp : t.user.wodbuster_password with
  | none =>
    refine ⟨"Session expired and no credentials stored", by decide, ?_⟩
    cases t.user.wodbuster_email <;> rfl
  | some pw =>
    cases he : t.user.wodbuster_email with
    | none => exact ⟨"Session expired and no credentials stored", by decide, rfl⟩
    | some em =>
      obtain ⟨m, hm⟩ : ∃ m, t.loginRes = .raisesLogin m := by
        rcases hcreds with h | h | h
        · rw [hp] at h; cases h
        · rw [he] at h; cases h
        · exact h
      rw [hm]
      refine ⟨"Session expired and re-login failed: " ++ m, ?_, rfl⟩
      rw [String.data_append]
      exact listLeads_append _ _ _ (by decide)

/-- C8: when a user's session restore fails and the credential fallback
fails too (login error or no stored credentials), the worker produces one
`failed` record per booking of that user, each with a session/login
message; and the fan-out over users is elementwise, so every other user's
results are exactly what they would be had this user not been present. -/
theorem relogin_failure_fails_all_user_bookings (todayAbs nowTs : Nat) (t : UserTask)
    (hfail : t.user.wodbuster_cookies = none ∨ t.restoreOk = false)
    (hcreds : t.user.wodbuster_password = none ∨ t.user.wodbuster_email = none ∨
      ∃ m, t.loginRes = .raisesLogin m) :
    ((runUser todayAbs nowTs t).results.length = t.data.length ∧
      ∀ r ∈ (runUser todayAbs nowTs t).results,
        r.status = "failed" ∧ listLeads "Session expired".data r.message.data = true) ∧
    (∀ ts1 ts2,
      runAllUsers todayAbs nowTs (ts1 ++ t :: ts2) =
        runAllUsers todayAbs nowTs ts1 ++
          (t.user.uid, runUser todayAbs nowTs t) :: runAllUsers todayAbs nowTs ts2 ∧
      runAllUsers todayAbs nowTs (ts1 ++ ts2) =
        runAllUsers todayAbs nowTs ts1 ++ runAllUsers todayAbs nowTs ts2) := by
  obtain ⟨msg, hlead, hrun⟩ := runUser_setup_failure todayAbs nowTs t hfail hcreds
  constructor
  · rw [hrun]
    constructor
    · simp
    · intro r hr
      simp only [List.mem_map] at hr
      obtain ⟨bd, _, rfl⟩ := hr
      exact ⟨rfl, hlead⟩
  · intro ts1 ts2
    constructor
    · simp [runAllUsers]
    · simp [runAllUsers]

/-- Witness for `relogin_failure_fails_all_user_bookings` on the concrete
task whose restore and re-login both fail. -/
theorem relogin_failure_fails_all_user_bookings_instance :
    ((runUser 700 5 taskLoginFail).results.length = taskLoginFail.data.length ∧
      ∀ r ∈ (runUser 700 5 taskLoginFail).results,
        r.status = "failed" ∧ listLeads "Session expired".data r.message.data = true) ∧
    (∀ ts1 ts2,
      runAllUsers 700 5 (ts1 ++ taskLoginFail :: ts2) =
        runAllUsers 700 5 ts1 ++
          (taskLoginFail.user.uid, runUser 700 5 taskLoginFail) :: runAllUsers 700 5 ts2 ∧
      runAllUsers 700 5 (ts1 ++ ts2) =
        runAllUsers 700 5 ts1 ++ runAllUsers 700 5 ts2) :=
  relogin_failure_fails_all_user_bookings 700 5 taskLoginFail
    (Or.inr rfl) (Or.inr (Or.inr ⟨"Invalid email or password", rfl⟩))

/-- C10: on the setup-failure path the worker returns failure records but
leaves every `Booking` row untouched (the table image is returned
verbatim, so status, counters, `last_error` and `last_attempt` keep their
prior values), creates no `BookingLog` rows, and commits no cookies. -/
theorem setup_failure_leaves_state_unchanged (todayAbs nowTs : Nat) (t : UserTask)
    (hfail : t.user.wodbuster_cookies = none ∨ t.restoreOk = false)
    (hcreds : t.user.wodbuster_password = none ∨ t.user.wodbuster_email = none ∨
      ∃ m, t.loginRes = .raisesLogin m) :
    (runUser todayAbs nowTs t).db = t.db ∧
    (runUser todayAbs nowTs t).logs = [] ∧
    (runUser todayAbs nowTs t).savedCookies = none ∧
    ∀ r ∈ (runUser todayAbs nowTs t).results, r.status = "failed" := by
  obtain ⟨msg, _, hrun⟩ := runUser_setup_failure todayAbs nowTs t hfail hcreds
  rw [hrun]
  refine ⟨rfl, rfl, rfl, ?_⟩
  intro r hr
  simp only [List.mem_map] at hr
  obtain ⟨bd, _, rfl⟩ := hr
  rfl

/-- Witness for `setup_failure_leaves_state_unchanged` on the concrete
failing task. -/
theorem setup_failure_leaves_state_unchanged_instance :
    (runUser 700 5 taskLoginFail).db = taskLoginFail.db ∧
    (runUser 700 5 taskLoginFail).logs = [] ∧
    (runUser 700 5 taskLoginFail).savedCookies = none ∧
    ∀ r ∈ (runUser 700 5 taskLoginFail).results, r.status = "failed" :=
  setup_failure_leaves_state_unchanged 700 5 taskLoginFail
    (Or.inr rfl) (Or.inr (Or.inr ⟨"Invalid email or password", rfl⟩))

end WodSniper
